import Mathlib

/-!
Verification development for the peko repository: the forte request
classifier/proxy, the generated wrapper error protocol, the type emitter,
the compilation state machine, the hot-swappable module runtime, and the
ski sandbox entry point. Definitions are shallow embeddings of the code
under src; where the repository holds only the design document and no
implementation, a definition is marked `Modelled from the spec:` in its
doc comment.
-/

namespace Peko

/-- JSON values, used to state the wire-level response envelopes. -/
inductive Json where
  | str (s : String)
  | num (n : Int)
  | bool (b : Bool)
  | null
  | arr (xs : List Json)
  | obj (fields : List (String × Json))
deriving Repr

/-- Request classes of the forte proxy, from RequestType in the
proxy excerpt of src/forte/PLAN.md. -/
inductive RequestType where
  | Static
  | Internal
  | ApiOnly
  | Page
deriving Repr, DecidableEq

/-- A request path as a character sequence; the Rust code works on &str,
here a path is its list of characters so that starts_with is the
list-prefix test. -/
abbrev Path := List Char

/-- The client-asset prefix "/client/" from classify_request. -/
def clientPrefix : Path := ['/', 'c', 'l', 'i', 'e', 'n', 't', '/']

/-- The public-static prefix "/static/" from classify_request. -/
def staticPrefix : Path := ['/', 's', 't', 'a', 't', 'i', 'c', '/']

/-- The internal-control prefix from classify_request; it reads
"/__forte/". -/
def fortePrefix : Path := ['/', '_', '_', 'f', 'o', 'r', 't', 'e', '/']

/-- The API prefix "/api/" from classify_request. -/
def apiPrefix : Path := ['/', 'a', 'p', 'i', '/']

/-- classify_request from src/forte/PLAN.md (proxy excerpt): fixed
prefix precedence — client-asset or public-static prefix to Static,
internal-control prefix to Internal, API prefix to ApiOnly, everything
else to Page. Rust str::starts_with is List.isPrefixOf on characters. -/
def classify_request (path : Path) : RequestType :=
  if clientPrefix.isPrefixOf path || staticPrefix.isPrefixOf path then
    RequestType.Static
  else if fortePrefix.isPrefixOf path then
    RequestType.Internal
  else if apiPrefix.isPrefixOf path then
    RequestType.ApiOnly
  else
    RequestType.Page

/-- Two of the designated prefixes never agree on the same path: they
differ at the second character. -/
theorem prefixes_disjoint (p : Path) :
    (clientPrefix.isPrefixOf p && fortePrefix.isPrefixOf p) = false ∧
    (clientPrefix.isPrefixOf p && apiPrefix.isPrefixOf p) = false ∧
    (staticPrefix.isPrefixOf p && fortePrefix.isPrefixOf p) = false ∧
    (staticPrefix.isPrefixOf p && apiPrefix.isPrefixOf p) = false ∧
    (fortePrefix.isPrefixOf p && apiPrefix.isPrefixOf p) = false := by
  match p with
  | [] => simp [clientPrefix, staticPrefix, fortePrefix, apiPrefix, List.isPrefixOf]
  | [c] => simp [clientPrefix, staticPrefix, fortePrefix, apiPrefix, List.isPrefixOf]
  | c :: d :: rest =>
    simp only [clientPrefix, staticPrefix, fortePrefix, apiPrefix, List.isPrefixOf,
      Bool.and_eq_false_iff]
    refine ⟨?_, ?_, ?_, ?_, ?_⟩
    · by_cases h : 'c' = d
      · simp [← h]
      · simp [h]
    · by_cases h : 'c' = d
      · simp [← h]
      · simp [h]
    · by_cases h : 's' = d
      · simp [← h]
      · simp [h]
    · by_cases h : 's' = d
      · simp [← h]
      · simp [h]
    · by_cases h : '_' = d
      · simp [← h]
      · simp [h]

/-- C1: classify_request maps every path to exactly one of Static,
Internal, ApiOnly, Page, by fixed prefix precedence: the client-asset
prefix /client/ or the public-static prefix /static/ gives Static, the
internal-control prefix /__forte/ gives Internal, the API prefix /api/
gives ApiOnly, and every other path gives Page; being a total function
the classification is deterministic and total. -/
theorem classify_request_total_prefix_precedence (p : Path) :
    ((clientPrefix.isPrefixOf p ∨ staticPrefix.isPrefixOf p) →
      classify_request p = RequestType.Static) ∧
    (fortePrefix.isPrefixOf p → classify_request p = RequestType.Internal) ∧
    (apiPrefix.isPrefixOf p → classify_request p = RequestType.ApiOnly) ∧
    ((¬ clientPrefix.isPrefixOf p ∧ ¬ staticPrefix.isPrefixOf p ∧
      ¬ fortePrefix.isPrefixOf p ∧ ¬ apiPrefix.isPrefixOf p) →
      classify_request p = RequestType.Page) ∧
    (∃! t : RequestType, classify_request p = t) := by
  obtain ⟨hcf, hca, hsf, hsa, hfa⟩ := prefixes_disjoint p
  rw [Bool.and_eq_false_iff] at hcf hca hsf hsa hfa
  refine ⟨?_, ?_, ?_, ?_, ⟨classify_request p, rfl, fun t ht => ht.symm⟩⟩
  · intro h
    unfold classify_request
    rcases h with h | h <;> simp [h]
  · intro h
    have h1 : clientPrefix.isPrefixOf p = false := by
      rcases hcf with h1 | h1
      · exact h1
      · rw [h] at h1; exact absurd h1 (by simp)
    have h2 : staticPrefix.isPrefixOf p = false := by
      rcases hsf with h2 | h2
      · exact h2
      · rw [h] at h2; exact absurd h2 (by simp)
    unfold classify_request
    simp [h1, h2, h]
  · intro h
    have h1 : clientPrefix.isPrefixOf p = false := by
      rcases hca with h1 | h1
      · exact h1
      · rw [h] at h1; exact absurd h1 (by simp)
    have h2 : staticPrefix.isPrefixOf p = false := by
      rcases hsa with h2 | h2
      · exact h2
      · rw [h] at h2; exact absurd h2 (by simp)
    have h3 : fortePrefix.isPrefixOf p = false := by
      rcases hfa with h3 | h3
      · exact h3
      · rw [h] at h3; exact absurd h3 (by simp)
    unfold classify_request
    simp [h1, h2, h3, h]
  · rintro ⟨h1, h2, h3, h4⟩
    unfold classify_request
    simp only [Bool.not_eq_true] at h1 h2 h3 h4
    simp [h1, h2, h3, h4]

/-- C1 witness: concrete classifications at one path per class. -/
theorem classify_request_total_prefix_precedence_witness :
    classify_request ['/', 'c', 'l', 'i', 'e', 'n', 't', '/', 'a'] = RequestType.Static ∧
    classify_request ['/', '_', '_', 'f', 'o', 'r', 't', 'e', '/', 'x'] = RequestType.Internal ∧
    classify_request ['/', 'a', 'p', 'i', '/', 'u'] = RequestType.ApiOnly ∧
    classify_request ['/', 'h', 'o', 'm', 'e'] = RequestType.Page := by
  refine ⟨?_, ?_, ?_, ?_⟩
  · exact (classify_request_total_prefix_precedence _).1 (Or.inl (by decide))
  · exact (classify_request_total_prefix_precedence _).2.1 (by decide)
  · exact (classify_request_total_prefix_precedence _).2.2.1 (by decide)
  · exact (classify_request_total_prefix_precedence _).2.2.2.1 (by decide)

/-- A single field failure produced by the validator crate, as surfaced
in the 400 envelope of section 6.5 of src/forte/PLAN.md. -/
structure FieldError where
  field : String
  message : String

/-- A value of a business Response or Error enum: serde with the
internal tag "type" (section 6.3 of src/forte/PLAN.md), so one variant
name plus its named fields. -/
structure TaggedValue where
  variantName : String
  fields : List (String × Json)

/-- serde_json serialization of a business enum value under
serde(tag = "type"): the discriminant field first, variant fields
inlined alongside. -/
def serializeTagged (v : TaggedValue) : Json :=
  Json.obj (("type", Json.str v.variantName) :: v.fields)

/-- An HTTP response as the wrapper produces it: status code and JSON
body. -/
structure HttpResp where
  status : Nat
  body : Json
deriving Repr

/-- send_error_400 from wrapper_post: a 400 response carrying the given
error text (used for the invalid-JSON case). -/
def send_error_400 (msg : String) : HttpResp :=
  { status := 400, body := Json.obj [("error", Json.str msg)] }

/-- send_validation_error_400 from wrapper_post with the envelope of
section 6.5: 400, error "Validation Error", and one errors entry per
failing field carrying that field and its message. -/
def send_validation_error_400 (errors : List FieldError) : HttpResp :=
  { status := 400
    body := Json.obj
      [("error", Json.str "Validation Error"),
       ("errors", Json.arr (errors.map fun e =>
          Json.obj [("field", Json.str e.field), ("message", Json.str e.message)]))] }

/-- send_error_500 from wrapper_post with the envelope of section 6.5:
500, error "Internal Server Error", and the diagnostic message. -/
def send_error_500 (msg : String) : HttpResp :=
  { status := 500
    body := Json.obj
      [("error", Json.str "Internal Server Error"), ("message", Json.str msg)] }

/-- send_json_200 from wrapper_post: 200 with the serde serialization of
a business enum value. -/
def send_json_200 (v : TaggedValue) : HttpResp :=
  { status := 200, body := serializeTagged v }

/-- wrapper_post from src/forte/PLAN.md section 6.4, over an abstract
ActionInput type a: body deserialization result, validator result
(Except errors Unit mirrors Result of the validate call), then
post_action whose outer level is the anyhow error channel and whose
inner level is the business Result of Response and Error. -/
def wrapper_post {a : Type} (parsed : Except String a)
    (validate : a → Except (List FieldError) Unit)
    (post_action : a → Except String (Except TaggedValue TaggedValue)) : HttpResp :=
  match parsed with
  | Except.error _ => send_error_400 "Invalid JSON"
  | Except.ok input =>
    match validate input with
    | Except.error errors => send_validation_error_400 errors
    | Except.ok _ =>
      match post_action input with
      | Except.error anyhow_err => send_error_500 anyhow_err
      | Except.ok result =>
        match result with
        | Except.ok response => send_json_200 response
        | Except.error err => send_json_200 err

/-- C4: when the handler returns a declared business-logic error variant
(the inner error of the two-level result, not an outer failure), the
wrapper responds 200 with that variant serialized as tagged JSON, never
400 and never 500. -/
theorem wrapper_post_business_error_200 {a : Type} (input : a)
    (validate : a → Except (List FieldError) Unit)
    (post_action : a → Except String (Except TaggedValue TaggedValue))
    (e : TaggedValue)
    (hv : validate input = Except.ok ())
    (hp : post_action input = Except.ok (Except.error e)) :
    (wrapper_post (Except.ok input) validate post_action).status = 200 ∧
    (wrapper_post (Except.ok input) validate post_action).body =
      Json.obj (("type", Json.str e.variantName) :: e.fields) ∧
    (wrapper_post (Except.ok input) validate post_action).status ≠ 400 ∧
    (wrapper_post (Except.ok input) validate post_action).status ≠ 500 := by
  simp [wrapper_post, hv, hp, send_json_200, serializeTagged]

/-- C4 witness: a concrete input whose business logic declares an
InvalidCredentials error is answered 200 with the tagged JSON. -/
theorem wrapper_post_business_error_200_witness :
    (wrapper_post (a := Unit) (Except.ok ())
      (fun _ => Except.ok ())
      (fun _ => Except.ok (Except.error
        ⟨"InvalidCredentials", [("message", Json.str "Invalid email or password")]⟩))).status
      = 200 :=
  (wrapper_post_business_error_200 () _ _
    ⟨"InvalidCredentials", [("message", Json.str "Invalid email or password")]⟩
    rfl rfl).1

/-- C5: when validation fails, the wrapper responds 400 with the
Validation Error envelope carrying exactly one entry per failing field
(field and message), and post_action is never consulted: the response is
the same whatever the handler logic would have returned. -/
theorem wrapper_post_validation_400 {a : Type} (input : a)
    (validate : a → Except (List FieldError) Unit)
    (post_action : a → Except String (Except TaggedValue TaggedValue))
    (errs : List FieldError)
    (hv : validate input = Except.error errs) :
    (wrapper_post (Except.ok input) validate post_action).status = 400 ∧
    (wrapper_post (Except.ok input) validate post_action).body =
      Json.obj
        [("error", Json.str "Validation Error"),
         ("errors", Json.arr (errs.map fun e =>
            Json.obj [("field", Json.str e.field), ("message", Json.str e.message)]))] ∧
    (errs.map fun e =>
        Json.obj [("field", Json.str e.field), ("message", Json.str e.message)]).length
      = errs.length ∧
    (∀ post_action2 : a → Except String (Except TaggedValue TaggedValue),
      wrapper_post (Except.ok input) validate post_action =
        wrapper_post (Except.ok input) validate post_action2) := by
  refine ⟨?_, ?_, by simp, ?_⟩
  · simp [wrapper_post, hv, send_validation_error_400]
  · simp [wrapper_post, hv, send_validation_error_400]
  · intro pa2
    simp [wrapper_post, hv]

/-- C5 witness: a concrete failing email field is answered 400 with one
errors entry, and the handler logic is not consulted. -/
theorem wrapper_post_validation_400_witness :
    (wrapper_post (a := Unit) (Except.ok ())
      (fun _ => Except.error [⟨"email", "Invalid email format"⟩])
      (fun _ => Except.ok (Except.ok ⟨"Success", []⟩))).status = 400 :=
  (wrapper_post_validation_400 () _ _ [⟨"email", "Invalid email format"⟩] rfl).1

/-- A request as runHandler in src/ski/ski/run.js rebuilds it from the
host ops: url, method, headers, optional body. -/
structure SkiRequest where
  url : String
  method : String
  headers : List (String × String)
  hasBody : Bool

/-- A response as run.js hands it to op_respond: status, header list and
an optional JSON body (none models a null response resource). -/
structure SkiResponse where
  status : Nat
  headers : List (String × String)
  bodyJson : Option Json

/-- runHandler from src/ski/ski/run.js: builds the Request, requires a
global handler function, awaits it, and responds with its status,
headers and body; any error thrown on the way (a missing handler or a
throwing handler) is caught and answered with op_respond of status 500,
a text/plain content-type header, and a null body. -/
def runHandler (handler : Option (SkiRequest → Except String SkiResponse))
    (req : SkiRequest) : SkiResponse :=
  match handler with
  | none =>
    { status := 500, headers := [("content-type", "text/plain")], bodyJson := none }
  | some h =>
    match h req with
    | Except.ok response => response
    | Except.error _ =>
      { status := 500, headers := [("content-type", "text/plain")], bodyJson := none }

/-- Recognizer for the 500 envelope of section 6.5 of src/forte/PLAN.md:
a JSON object whose fields are error set to Internal Server Error and a
message string. -/
def isInternalErrorEnvelope : Option Json → Bool
  | some (Json.obj [("error", Json.str e), ("message", Json.str _)]) =>
    e == "Internal Server Error"
  | _ => false

/-- A request used in concrete evaluations of the ski runtime. -/
def skiReq0 : SkiRequest :=
  { url := "http://localhost/product/7", method := "GET", headers := [], hasBody := false }

/-- C6 counterexample: a handler that raises an internal failure is
answered by the ski runtime with status 500 but with a null text/plain
body, not the JSON envelope with error Internal Server Error and a
message string that the claim asserts for every request. -/
theorem runHandler_500_body_not_envelope :
    (runHandler (some fun _ => Except.error "boom") skiReq0).status = 500 ∧
    (runHandler (some fun _ => Except.error "boom") skiReq0).bodyJson = none ∧
    isInternalErrorEnvelope
      (runHandler (some fun _ => Except.error "boom") skiReq0).bodyJson = false := by
  refine ⟨rfl, rfl, rfl⟩

/-- C6 amended: every internal failure is converted to an HTTP 500 and
never escapes as an unstructured failure; the generated wrapper_post
responds with the JSON envelope carrying error Internal Server Error and
the diagnostic message, while the ski runtime top-level catch responds
500 with a null text/plain body. -/
theorem internal_failure_always_500 {a : Type} (input : a)
    (validate : a → Except (List FieldError) Unit)
    (post_action : a → Except String (Except TaggedValue TaggedValue))
    (msg : String)
    (h : SkiRequest → Except String SkiResponse) (req : SkiRequest) (jsMsg : String)
    (hv : validate input = Except.ok ())
    (hp : post_action input = Except.error msg)
    (hh : h req = Except.error jsMsg) :
    (wrapper_post (Except.ok input) validate post_action).status = 500 ∧
    (wrapper_post (Except.ok input) validate post_action).body =
      Json.obj [("error", Json.str "Internal Server Error"), ("message", Json.str msg)] ∧
    (runHandler (some h) req).status = 500 ∧
    (runHandler (some h) req).bodyJson = none := by
  refine ⟨?_, ?_, ?_, ?_⟩
  · simp [wrapper_post, hv, hp, send_error_500]
  · simp [wrapper_post, hv, hp, send_error_500]
  · simp [runHandler, hh]
  · simp [runHandler, hh]

/-- C6 amended witness: concrete evaluation of both 500 paths. -/
theorem internal_failure_always_500_witness :
    (wrapper_post (a := Unit) (Except.ok ())
      (fun _ => Except.ok ())
      (fun _ => Except.error "Database query failed")).status = 500 ∧
    (runHandler (some fun _ => Except.error "render failed") skiReq0).status = 500 := by
  have h := internal_failure_always_500 ()
    (fun _ => Except.ok ())
    (fun _ => Except.error "Database query failed")
    "Database query failed"
    (fun _ => Except.error "render failed") skiReq0 "render failed"
    rfl rfl rfl
  exact ⟨h.1, h.2.2.1⟩

/-- JavaScript String.prototype.split with separator "/" on a character
sequence: "" gives [""], a leading "/" yields a leading empty part. -/
def splitSlash (s : List Char) : List (List Char) :=
  match s with
  | [] => [[]]
  | c :: rest =>
    let r := splitSlash rest
    if c = '/' then [] :: r
    else
      match r with
      | [] => [[c]]
      | h :: t => (c :: h) :: t

/-- Outcomes of the page-rendering handler in the manual frontend bundle
(src/unnamed/part_003): render the index page, render the product page,
or the Not Found response with status 404. -/
inductive FeResponse where
  | pageIndex
  | pageProduct
  | notFound404
deriving Repr, DecidableEq

/-- The handler of src/unnamed/part_003 on the URL pathname: splits on
the slash; the index branch tests length 2 and that the element at index
2 (JS pathParts[2], undefined on a two-element array, here get? 2)
equals the empty string; the product branch tests length 3 and element
at index 2 equal to "product"; otherwise Not Found with status 404. -/
def feHandler (pathname : List Char) : FeResponse :=
  let pathParts := splitSlash pathname
  if pathParts.length == 2 && pathParts.get? 2 == some ([] : List Char) then
    FeResponse.pageIndex
  else if pathParts.length == 3 &&
      pathParts.get? 2 == some ['p', 'r', 'o', 'd', 'u', 'c', 't'] then
    FeResponse.pageProduct
  else
    FeResponse.notFound404

/-- C10: every pathname splitting into exactly two parts (the root path
among them) is answered Not Found 404, and the index-page branch is
unreachable for every pathname, since index 2 of a two-element split is
never the empty string. -/
theorem feHandler_two_segment_404 (pathname : List Char) :
    ((splitSlash pathname).length = 2 → feHandler pathname = FeResponse.notFound404) ∧
    feHandler pathname ≠ FeResponse.pageIndex := by
  constructor
  · intro h2
    have hg : (splitSlash pathname)[2]? = none := List.getElem?_eq_none (by omega)
    unfold feHandler
    simp [h2, hg]
  · unfold feHandler
    by_cases h2 : (splitSlash pathname).length = 2
    · have hg : (splitSlash pathname)[2]? = none := List.getElem?_eq_none (by omega)
      simp [h2, hg]
    · have hb : ((splitSlash pathname).length == 2) = false := by
        simp [h2]
      simp [hb]
      split <;> simp

/-- C10 witness: the root path splits into two empty parts and receives
Not Found 404. -/
theorem feHandler_two_segment_404_witness :
    (splitSlash ['/']).length = 2 ∧ feHandler ['/'] = FeResponse.notFound404 :=
  ⟨by decide, (feHandler_two_segment_404 ['/']).1 (by decide)⟩

/-- TypeScript type expressions as the generator emits them (section 5
of src/forte/PLAN.md and the generated artifacts in src). -/
inductive TsType where
  | str
  | num
  | boolean
  | nullKw
  | lit (s : String)
  | union (ts : List TsType)
  | obj (fields : List (String × TsType))
  | arr (t : TsType)
  | record (t : TsType)
deriving Repr

/-- Payload of one Rust enum variant: unit, a single unnamed field, or
named struct fields whose types are already rendered. -/
inductive VariantPayload where
  | unit
  | tuple1 (t : TsType)
  | strukt (fields : List (String × TsType))
deriving Repr

/-- Whether a variant payload is a unit payload. -/
def VariantPayload.isUnit : VariantPayload → Bool
  | VariantPayload.unit => true
  | _ => false

/-- One enum variant: its name and payload. -/
structure EnumVariant where
  name : String
  payload : VariantPayload

/-- A Rust enum as the extractor sees it: name, variants, and the
optional serde internal tag (serde tag attribute), as in section 5.3 of
src/forte/PLAN.md. -/
structure EnumDef where
  name : String
  variants : List EnumVariant
  tag : Option String

/-- serde default (external) tagging as shown by the generated artifact
src/forte-manual/fe/src/pages/product/[id]/.props.ts: a unit variant is
the bare string literal of its name, a one-field tuple variant is a
one-key object named by the variant, a struct variant nests its fields
under the variant name. -/
def emitVariantUntagged (v : EnumVariant) : TsType :=
  match v.payload with
  | VariantPayload.unit => TsType.lit v.name
  | VariantPayload.tuple1 t => TsType.obj [(v.name, t)]
  | VariantPayload.strukt fs => TsType.obj [(v.name, TsType.obj fs)]

/-- serde internal tagging (tag attribute) as shown in section 5.3 of
src/forte/PLAN.md: every variant is an object whose first field is the
discriminant carrying the variant name, struct fields inlined alongside;
serde rejects internal tagging of tuple variants. -/
def emitVariantTagged (tag : String) (v : EnumVariant) : Except String TsType :=
  match v.payload with
  | VariantPayload.unit => Except.ok (TsType.obj [(tag, TsType.lit v.name)])
  | VariantPayload.strukt fs => Except.ok (TsType.obj ((tag, TsType.lit v.name) :: fs))
  | VariantPayload.tuple1 _ => Except.error "internal tag on tuple variant unsupported"

/-- Emit every variant under the internal tag, stopping at the first
failure. -/
def emitVariantsTagged (tag : String) : List EnumVariant → Except String (List TsType)
  | [] => Except.ok []
  | v :: vs =>
    match emitVariantTagged tag v, emitVariantsTagged tag vs with
    | Except.ok t, Except.ok ts => Except.ok (t :: ts)
    | Except.error e, _ => Except.error e
    | _, Except.error e => Except.error e

/-- Enum emission, from the artifacts under src and the example of
section 5.3 of src/forte/PLAN.md: an enum with only unit variants
becomes the closed union of its variant-name string literals; a
data-carrying enum becomes the union of its per-variant emissions, under
the internal tag when the serde tag attribute is present and under serde
default external tagging otherwise. -/
def emitEnum (e : EnumDef) : Except String TsType :=
  if e.variants.all (fun v => v.payload.isUnit) then
    Except.ok (TsType.union (e.variants.map fun v => TsType.lit v.name))
  else
    match e.tag with
    | some tag =>
      match emitVariantsTagged tag e.variants with
      | Except.ok ts => Except.ok (TsType.union ts)
      | Except.error msg => Except.error msg
    | none => Except.ok (TsType.union (e.variants.map emitVariantUntagged))

/-- Whether a TypeScript type is an object whose first field is the
given discriminant field holding a string literal. -/
def isDiscriminatedObj (tag : String) : TsType → Bool
  | TsType.obj ((f, TsType.lit _) :: _) => f == tag
  | _ => false

/-- Whether a TypeScript type is a union all of whose members are
discriminant-first objects. -/
def allVariantsDiscriminated (tag : String) : TsType → Bool
  | TsType.union ts => ts.all (isDiscriminatedObj tag)
  | _ => false

/-- The stock enum of the generated artifact
src/forte-manual/fe/src/pages/product/[id]/.props.ts: variants InStock
with one numeric field, OutOfStock unit, PreOrder with a releaseDate
string; no serde tag attribute. -/
def stockEnum : EnumDef :=
  { name := "Stock"
    variants :=
      [⟨"InStock", VariantPayload.tuple1 TsType.num⟩,
       ⟨"OutOfStock", VariantPayload.unit⟩,
       ⟨"PreOrder", VariantPayload.strukt [("releaseDate", TsType.str)]⟩]
    tag := none }

/-- C7 counterexample: the stock enum of the generated artifact is
data-carrying, yet its emission — exactly the union printed in
.props.ts — has the unit variant OutOfStock as a bare string literal and
no discriminant field on the data variants, so not every variant is an
object with a fixed discriminant field. -/
theorem emitEnum_stock_not_discriminated :
    (stockEnum.variants.all (fun v => v.payload.isUnit)) = false ∧
    emitEnum stockEnum = Except.ok (TsType.union
      [TsType.obj [("InStock", TsType.num)],
       TsType.lit "OutOfStock",
       TsType.obj [("PreOrder", TsType.obj [("releaseDate", TsType.str)])]]) ∧
    allVariantsDiscriminated "type" (TsType.union
      [TsType.obj [("InStock", TsType.num)],
       TsType.lit "OutOfStock",
       TsType.obj [("PreOrder", TsType.obj [("releaseDate", TsType.str)])]]) = false := by
  refine ⟨rfl, rfl, rfl⟩

/-- Tagged variant emission only ever succeeds with discriminant-first
objects. -/
theorem emitVariantsTagged_discriminated (tag : String) (vs : List EnumVariant)
    (ts : List TsType) (h : emitVariantsTagged tag vs = Except.ok ts) :
    ts.all (isDiscriminatedObj tag) = true := by
  induction vs generalizing ts with
  | nil =>
    simp [emitVariantsTagged] at h
    subst h
    simp
  | cons v vs ih =>
    cases hv : emitVariantTagged tag v with
    | error e => simp [emitVariantsTagged, hv] at h
    | ok t =>
      cases hvs : emitVariantsTagged tag vs with
      | error e => simp [emitVariantsTagged, hv, hvs] at h
      | ok ts2 =>
        simp only [emitVariantsTagged, hv, hvs, Except.ok.injEq] at h
        subst h
        have ht : isDiscriminatedObj tag t = true := by
          cases v with
          | mk name payload =>
            cases payload with
            | unit =>
              simp [emitVariantTagged] at hv
              simp [← hv, isDiscriminatedObj]
            | tuple1 t0 => simp [emitVariantTagged] at hv
            | strukt fs =>
              simp [emitVariantTagged] at hv
              simp [← hv, isDiscriminatedObj]
        simp [List.all_cons, ht, ih ts2 hvs]

/-- C7 amended: an enum with only unit variants is emitted as the closed
union of its variant-name string literals; a data-carrying enum declared
with the serde internal tag attribute is emitted as a tagged union where
every variant is an object with the fixed discriminant field first and
struct fields inlined; a data-carrying enum without the tag attribute is
emitted with serde default external tagging: unit variants as string
literals, data variants as one-key objects named by the variant. -/
theorem emitEnum_policy (e : EnumDef) :
    (e.variants.all (fun v => v.payload.isUnit) = true →
      emitEnum e = Except.ok (TsType.union (e.variants.map fun v => TsType.lit v.name))) ∧
    (∀ tag t, e.variants.all (fun v => v.payload.isUnit) = false → e.tag = some tag →
      emitEnum e = Except.ok t → allVariantsDiscriminated tag t = true) ∧
    (e.variants.all (fun v => v.payload.isUnit) = false → e.tag = none →
      emitEnum e = Except.ok (TsType.union (e.variants.map emitVariantUntagged))) := by
  refine ⟨?_, ?_, ?_⟩
  · intro h
    simp [emitEnum, h]
  · intro tag t hdata htag h
    rw [emitEnum, hdata, htag] at h
    simp only [Bool.false_eq_true, if_false] at h
    cases hts : emitVariantsTagged tag e.variants with
    | error msg => rw [hts] at h; cases h
    | ok ts =>
      rw [hts] at h
      cases h
      simp [allVariantsDiscriminated, emitVariantsTagged_discriminated tag e.variants ts hts]
  · intro hdata htag
    simp [emitEnum, hdata, htag]

/-- The Status enum of section 5.3 of src/forte/PLAN.md: Pending,
Active with a since string, Inactive, with serde tag "type". -/
def statusEnum : EnumDef :=
  { name := "Status"
    variants :=
      [⟨"Pending", VariantPayload.unit⟩,
       ⟨"Active", VariantPayload.strukt [("since", TsType.str)]⟩,
       ⟨"Inactive", VariantPayload.unit⟩]
    tag := some "type" }

/-- C7 amended witness: the Status example of the design document emits
the tagged union of section 5.3, every variant a discriminant-first
object, and a unit-only enum emits string literals. -/
theorem emitEnum_policy_witness :
    allVariantsDiscriminated "type" (TsType.union
      [TsType.obj [("type", TsType.lit "Pending")],
       TsType.obj [("type", TsType.lit "Active"), ("since", TsType.str)],
       TsType.obj [("type", TsType.lit "Inactive")]]) = true ∧
    emitEnum { name := "BannerVariant"
               variants := [⟨"Primary", VariantPayload.unit⟩,
                            ⟨"Secondary", VariantPayload.unit⟩,
                            ⟨"Alert", VariantPayload.unit⟩]
               tag := none } =
      Except.ok (TsType.union
        [TsType.lit "Primary", TsType.lit "Secondary", TsType.lit "Alert"]) := by
  constructor
  · exact (emitEnum_policy statusEnum).2.1 "type" _ rfl rfl rfl
  · exact (emitEnum_policy _).1 rfl

/-- Primitive kinds of the abstract schema: the integer kinds i8..u64,
the floating kinds f32 and f64, bool, string, and the opaque-identifier
kinds mapped to string by the Forte.toml type_mappings table (uuid,
chrono, decimal) — sections 5.1 and 5.2 of src/forte/PLAN.md. -/
inductive PrimKind where
  | int
  | float
  | boolean
  | string
  | opaqueId
deriving Repr, DecidableEq

/-- Abstract schema types of the extractor: primitives, Option, Vec and
HashMap, per the data model and the mapping table of section 5.1 of
src/forte/PLAN.md. -/
inductive SchemaType where
  | prim (k : PrimKind)
  | optional (t : SchemaType)
  | list (t : SchemaType)
  | map (key value : SchemaType)
deriving Repr, DecidableEq

/-- The type mapping of section 5.1 of src/forte/PLAN.md: integer and
floating kinds to number, bool to boolean, String and the mapped
opaque-identifier kinds to string, Option to the nullable union with the
null keyword, Vec to the array type, HashMap with String keys to
Record with string index. Modelled from the spec: the emitter
implementation is absent from src, and a map with a non-string key —
outside the table of 5.1 — is the declared unsupported error. -/
def emitType : SchemaType → Except String TsType
  | SchemaType.prim PrimKind.int => Except.ok TsType.num
  | SchemaType.prim PrimKind.float => Except.ok TsType.num
  | SchemaType.prim PrimKind.boolean => Except.ok TsType.boolean
  | SchemaType.prim PrimKind.string => Except.ok TsType.str
  | SchemaType.prim PrimKind.opaqueId => Except.ok TsType.str
  | SchemaType.optional t =>
    match emitType t with
    | Except.ok u => Except.ok (TsType.union [u, TsType.nullKw])
    | Except.error e => Except.error e
  | SchemaType.list t =>
    match emitType t with
    | Except.ok u => Except.ok (TsType.arr u)
    | Except.error e => Except.error e
  | SchemaType.map (SchemaType.prim PrimKind.string) v =>
    match emitType v with
    | Except.ok u => Except.ok (TsType.record u)
    | Except.error e => Except.error e
  | SchemaType.map _ _ => Except.error "unsupported map key type"

/-- C8: the primitive mapping is fixed — integer and floating kinds to
the numeric type, boolean to boolean, string and opaque-identifier kinds
to string, an optional inner type to the nullable union with null, a
list to an array type, a string-keyed map to a string-indexed record,
and a map with a non-string key is the declared unsupported error. -/
theorem emitType_fixed_mapping :
    emitType (SchemaType.prim PrimKind.int) = Except.ok TsType.num ∧
    emitType (SchemaType.prim PrimKind.float) = Except.ok TsType.num ∧
    emitType (SchemaType.prim PrimKind.boolean) = Except.ok TsType.boolean ∧
    emitType (SchemaType.prim PrimKind.string) = Except.ok TsType.str ∧
    emitType (SchemaType.prim PrimKind.opaqueId) = Except.ok TsType.str ∧
    (∀ t u, emitType t = Except.ok u →
      emitType (SchemaType.optional t) = Except.ok (TsType.union [u, TsType.nullKw])) ∧
    (∀ t u, emitType t = Except.ok u →
      emitType (SchemaType.list t) = Except.ok (TsType.arr u)) ∧
    (∀ v u, emitType v = Except.ok u →
      emitType (SchemaType.map (SchemaType.prim PrimKind.string) v) =
        Except.ok (TsType.record u)) ∧
    (∀ k v, k ≠ SchemaType.prim PrimKind.string →
      emitType (SchemaType.map k v) = Except.error "unsupported map key type") := by
  refine ⟨rfl, rfl, rfl, rfl, rfl, ?_, ?_, ?_, ?_⟩
  · intro t u h
    simp [emitType, h]
  · intro t u h
    simp [emitType, h]
  · intro v u h
    simp [emitType, h]
  · intro k v hk
    match k with
    | SchemaType.prim PrimKind.int => rfl
    | SchemaType.prim PrimKind.float => rfl
    | SchemaType.prim PrimKind.boolean => rfl
    | SchemaType.prim PrimKind.string => exact absurd rfl hk
    | SchemaType.prim PrimKind.opaqueId => rfl
    | SchemaType.optional _ => rfl
    | SchemaType.list _ => rfl
    | SchemaType.map _ _ => rfl

/-- C8 witness: concrete evaluations — Option of String, Vec of int, a
string-keyed map, and the unsupported int-keyed map. -/
theorem emitType_fixed_mapping_witness :
    emitType (SchemaType.optional (SchemaType.prim PrimKind.string)) =
      Except.ok (TsType.union [TsType.str, TsType.nullKw]) ∧
    emitType (SchemaType.list (SchemaType.prim PrimKind.int)) =
      Except.ok (TsType.arr TsType.num) ∧
    emitType (SchemaType.map (SchemaType.prim PrimKind.string) (SchemaType.prim PrimKind.int)) =
      Except.ok (TsType.record TsType.num) ∧
    emitType (SchemaType.map (SchemaType.prim PrimKind.int) (SchemaType.prim PrimKind.int)) =
      Except.error "unsupported map key type" := by
  refine ⟨?_, ?_, ?_, ?_⟩
  · exact emitType_fixed_mapping.2.2.2.2.2.1 _ _ rfl
  · exact emitType_fixed_mapping.2.2.2.2.2.2.1 _ _ rfl
  · exact emitType_fixed_mapping.2.2.2.2.2.2.2.1 _ _ rfl
  · exact emitType_fixed_mapping.2.2.2.2.2.2.2.2 _ _ (by simp)

/-- CLI internal state from section 14.2 of src/forte/PLAN.md:
backend_compiling, backend_ready, last_error. -/
structure CliState where
  backend_compiling : Bool
  backend_ready : Bool
  last_error : Option String

/-- Modelled from the spec: the fixed rebuilding response. Section 14.2
of src/forte/PLAN.md fixes the status 503 answered while the backend is
compiling; the response-envelope convention of the spec fixes the body,
a JSON object with field status holding the string compiling. -/
def rebuildingResp : HttpResp :=
  { status := 503, body := Json.obj [("status", Json.str "compiling")] }

/-- Modelled from the spec: the proxy handle step that consults the
compilation state, absent as code from src. Per section 14.2 of
src/forte/PLAN.md a request arriving while backend_compiling is answered
with the rebuilding response, and per the spec only the ApiOnly and Page
classes are gated: Static and Internal bypass the check; every other
request is delegated to the per-class collaborator serve. -/
def proxy_handle (st : CliState) (path : Path) (serve : RequestType → HttpResp) : HttpResp :=
  let t := classify_request path
  if st.backend_compiling && (t == RequestType.ApiOnly || t == RequestType.Page) then
    rebuildingResp
  else
    serve t

/-- C2: while the compilation state is compiling, every ApiOnly or Page
request receives the fixed rebuilding response — status 503, which is
neither 200 nor 404 nor 500 — whose body is the JSON object with status
compiling, while Static and Internal requests bypass the check and are
served normally. -/
theorem proxy_handle_compiling_gate (st : CliState) (path : Path)
    (serve : RequestType → HttpResp) (hc : st.backend_compiling = true) :
    ((classify_request path = RequestType.ApiOnly ∨
      classify_request path = RequestType.Page) →
      proxy_handle st path serve = rebuildingResp ∧
      rebuildingResp.status = 503 ∧
      rebuildingResp.status ≠ 200 ∧
      rebuildingResp.status ≠ 404 ∧
      rebuildingResp.status ≠ 500 ∧
      rebuildingResp.body = Json.obj [("status", Json.str "compiling")]) ∧
    ((classify_request path = RequestType.Static ∨
      classify_request path = RequestType.Internal) →
      proxy_handle st path serve = serve (classify_request path)) := by
  constructor
  · intro h
    refine ⟨?_, rfl, by simp [rebuildingResp], by simp [rebuildingResp],
      by simp [rebuildingResp], rfl⟩
    rcases h with h | h <;> simp [proxy_handle, h, hc]
  · intro h
    rcases h with h | h <;> simp [proxy_handle, h, hc]

/-- C2 witness: with compilation in progress, a concrete API path gets
the 503 rebuilding response while a concrete client-asset path is served
by the collaborator. -/
theorem proxy_handle_compiling_gate_witness :
    proxy_handle ⟨true, false, none⟩ ['/', 'a', 'p', 'i', '/', 'u']
      (fun _ => { status := 200, body := Json.null }) = rebuildingResp ∧
    proxy_handle ⟨true, false, none⟩ ['/', 'c', 'l', 'i', 'e', 'n', 't', '/', 'a']
      (fun _ => { status := 200, body := Json.null }) =
      { status := 200, body := Json.null } := by
  constructor
  · exact ((proxy_handle_compiling_gate ⟨true, false, none⟩ _ _ rfl).1
      (Or.inl (by decide))).1
  · have h := (proxy_handle_compiling_gate ⟨true, false, none⟩
      ['/', 'c', 'l', 'i', 'e', 'n', 't', '/', 'a']
      (fun _ => { status := 200, body := Json.null }) rfl).2
      (Or.inl (by decide))
    rw [h]

/-- The compilation states Idle, Compiling, Ready and Failed with
diagnostic. Modelled from the spec: src holds only the boolean flags of
section 14.2 of src/forte/PLAN.md, not the state machine itself. -/
inductive CState where
  | Idle
  | Compiling
  | Ready
  | Failed (diag : String)
deriving Repr, DecidableEq

/-- Events driving the build pipeline: a post-debounce file-change
detection, a build-and-swap success carrying the new module version, or
a build failure carrying the diagnostic. -/
inductive BuildEvent where
  | fileChange
  | buildSuccess (version : Nat)
  | buildFailure (diag : String)
deriving Repr, DecidableEq

/-- The pipeline state: the compilation state plus the currently live
module version, if any. -/
structure PipelineState where
  cstate : CState
  activeModule : Option Nat
deriving Repr, DecidableEq

/-- Modelled from the spec: the single-writer transition function of the
compilation state machine — file-change detection moves Idle, Ready or
Failed to Compiling (a change during Compiling is coalesced, not a
transition), build success moves Compiling to Ready and swaps the
module in, build failure moves Compiling to Failed and keeps the
previous module live; none gives no transition. -/
def pipeline_step (p : PipelineState) : BuildEvent → Option PipelineState
  | BuildEvent.fileChange =>
    match p.cstate with
    | CState.Compiling => none
    | _ => some { p with cstate := CState.Compiling }
  | BuildEvent.buildSuccess v =>
    match p.cstate with
    | CState.Compiling => some { cstate := CState.Ready, activeModule := some v }
    | _ => none
  | BuildEvent.buildFailure d =>
    match p.cstate with
    | CState.Compiling => some { p with cstate := CState.Failed d }
    | _ => none

/-- C9: every transition of the compilation state machine is one of —
Idle, Ready or Failed to Compiling on post-debounce file change, keeping
the module; Compiling to Ready on build-and-swap success; or Compiling
to Failed on build failure, keeping the previous module version live —
and no transition out of Compiling reaches Idle. -/
theorem pipeline_step_transitions (p q : PipelineState) (e : BuildEvent)
    (h : pipeline_step p e = some q) :
    ((e = BuildEvent.fileChange ∧ p.cstate ≠ CState.Compiling ∧
      q.cstate = CState.Compiling ∧ q.activeModule = p.activeModule) ∨
     (∃ v, e = BuildEvent.buildSuccess v ∧ p.cstate = CState.Compiling ∧
      q.cstate = CState.Ready ∧ q.activeModule = some v) ∨
     (∃ d, e = BuildEvent.buildFailure d ∧ p.cstate = CState.Compiling ∧
      q.cstate = CState.Failed d ∧ q.activeModule = p.activeModule)) ∧
    (p.cstate = CState.Compiling → q.cstate ≠ CState.Idle) := by
  cases e with
  | fileChange =>
    cases hp : p.cstate with
    | Idle =>
      simp [pipeline_step, hp] at h
      simp [← h, hp]
    | Compiling => simp [pipeline_step, hp] at h
    | Ready =>
      simp [pipeline_step, hp] at h
      simp [← h, hp]
    | Failed d =>
      simp [pipeline_step, hp] at h
      simp [← h, hp]
  | buildSuccess v =>
    cases hp : p.cstate with
    | Idle => simp [pipeline_step, hp] at h
    | Compiling =>
      simp [pipeline_step, hp] at h
      simp [← h, hp]
    | Ready => simp [pipeline_step, hp] at h
    | Failed d => simp [pipeline_step, hp] at h
  | buildFailure d =>
    cases hp : p.cstate with
    | Idle => simp [pipeline_step, hp] at h
    | Compiling =>
      simp [pipeline_step, hp] at h
      simp [← h, hp]
    | Ready => simp [pipeline_step, hp] at h
    | Failed d2 => simp [pipeline_step, hp] at h

/-- C9 witness: a concrete build failure out of Compiling reaches
Failed, keeps module version 1 live, and does not reach Idle. -/
theorem pipeline_step_transitions_witness :
    pipeline_step ⟨CState.Compiling, some 1⟩ (BuildEvent.buildFailure "E0308") =
      some ⟨CState.Failed "E0308", some 1⟩ ∧
    (⟨CState.Failed "E0308", some 1⟩ : PipelineState).cstate ≠ CState.Idle := by
  have h := pipeline_step_transitions ⟨CState.Compiling, some 1⟩
    ⟨CState.Failed "E0308", some 1⟩ (BuildEvent.buildFailure "E0308") rfl
  exact ⟨rfl, h.2 rfl⟩

/-- Modelled from the spec: the hot-swappable module runtime state.
The WasmRuntime reload implementation is absent from src (section 3.6 of
src/forte/PLAN.md gives only the flow), so the runtime is modelled as
the publish-and-retain-until-drained discipline: the active handle
version, the in-flight requests as pairs of request id and the handle
version captured at dispatch, the retained (still loaded) handle
versions, and every version ever published. -/
structure RuntimeState where
  active : Nat
  inflight : List (Nat × Nat)
  retained : List Nat
  published : List Nat
deriving Repr, DecidableEq

/-- Events of the module runtime: dispatch of a request, publish of a
new handle by reload, completion of a request. -/
inductive RtEvent where
  | dispatch (rid : Nat)
  | publish (h : Nat)
  | complete (rid : Nat)
deriving Repr, DecidableEq

/-- A retained handle survives a scan when it is the active handle or an
in-flight request still holds it; every other handle is released. -/
def retainScan (active : Nat) (inflight : List (Nat × Nat)) (retained : List Nat) :
    List Nat :=
  retained.filter (fun g => g == active || inflight.any (fun r => r.2 == g))

/-- Modelled from the spec: one runtime transition. Dispatch captures
the handle active at dispatch time; publish atomically replaces the
active handle, keeps every in-flight request on its captured handle, and
scans retention; completion removes the request and releases handles
whose last user it was. -/
def runtime_step (s : RuntimeState) : RtEvent → RuntimeState
  | RtEvent.dispatch rid =>
    { s with inflight := (rid, s.active) :: s.inflight }
  | RtEvent.publish h =>
    { active := h
      inflight := s.inflight
      retained := retainScan h s.inflight (h :: s.retained)
      published := h :: s.published }
  | RtEvent.complete rid =>
    let inflight2 := s.inflight.filter (fun r => r.1 != rid)
    { s with inflight := inflight2
             retained := retainScan s.active inflight2 s.retained }

/-- Runtime well-formedness: the active handle is loaded and was
published, and every in-flight request holds a loaded, published handle
— no torn or partial handle. -/
def WFRuntime (s : RuntimeState) : Prop :=
  s.active ∈ s.retained ∧ s.active ∈ s.published ∧
  ∀ r ∈ s.inflight, r.2 ∈ s.retained ∧ r.2 ∈ s.published

instance (s : RuntimeState) : Decidable (WFRuntime s) := by
  unfold WFRuntime
  infer_instance

/-- The runtime as it starts with one loaded module version. -/
def initRuntime (h0 : Nat) : RuntimeState :=
  { active := h0, inflight := [], retained := [h0], published := [h0] }

/-- C3: reload atomicity of the module runtime — a dispatch captures the
handle active at its dispatch time; a captured handle is never mutated
by later events until the request itself completes; a request dispatched
after a publish observes the newly published handle; from the initial
state every reachable state is well formed, so no request ever observes
a torn or unpublished handle and every in-flight handle stays loaded;
and a retained handle is released only when no in-flight request holds
it any more, so the previously active handle is retained until its last
in-flight request completes. -/
theorem runtime_reload_atomicity :
    (∀ s rid, (runtime_step s (RtEvent.dispatch rid)).inflight =
      (rid, s.active) :: s.inflight) ∧
    (∀ s e rid h, (rid, h) ∈ s.inflight →
      ((rid, h) ∈ (runtime_step s e).inflight ∨ e = RtEvent.complete rid)) ∧
    (∀ s h rid, (rid, h) ∈
      (runtime_step (runtime_step s (RtEvent.publish h)) (RtEvent.dispatch rid)).inflight) ∧
    (∀ h0, WFRuntime (initRuntime h0)) ∧
    (∀ s e, WFRuntime s → WFRuntime (runtime_step s e)) ∧
    (∀ s e g, g ∈ s.retained → g ∉ (runtime_step s e).retained →
      ∀ r ∈ (runtime_step s e).inflight, r.2 ≠ g) := by
  refine ⟨fun s rid => rfl, ?_, ?_, ?_, ?_, ?_⟩
  · intro s e rid h hmem
    cases e with
    | dispatch rid2 => exact Or.inl (List.mem_cons_of_mem _ hmem)
    | publish h2 => exact Or.inl hmem
    | complete rid2 =>
      by_cases hr : rid = rid2
      · exact Or.inr (by rw [hr])
      · refine Or.inl ?_
        simp only [runtime_step, List.mem_filter]
        exact ⟨hmem, by simp [hr]⟩
  · intro s h rid
    simp [runtime_step]
  · intro h0
    refine ⟨by simp [initRuntime], by simp [initRuntime], ?_⟩
    intro r hr
    simp [initRuntime] at hr
  · intro s e hwf
    obtain ⟨ha1, ha2, hin⟩ := hwf
    cases e with
    | dispatch rid =>
      refine ⟨ha1, ha2, ?_⟩
      intro r hr
      rcases List.mem_cons.mp hr with h | h
      · rw [h]
        exact ⟨ha1, ha2⟩
      · exact hin r h
    | publish h2 =>
      refine ⟨?_, List.mem_cons_self _ _, ?_⟩
      · simp only [runtime_step, retainScan, List.mem_filter]
        exact ⟨List.mem_cons_self _ _, by simp⟩
      · intro r hr
        simp only [runtime_step] at hr
        refine ⟨?_, List.mem_cons_of_mem _ (hin r hr).2⟩
        simp only [runtime_step, retainScan, List.mem_filter]
        refine ⟨List.mem_cons_of_mem _ (hin r hr).1, ?_⟩
        simp only [Bool.or_eq_true, List.any_eq_true]
        exact Or.inr ⟨r, hr, by simp⟩
    | complete rid =>
      refine ⟨?_, ha2, ?_⟩
      · simp only [runtime_step, retainScan, List.mem_filter]
        exact ⟨ha1, by simp⟩
      · intro r hr
        simp only [runtime_step, List.mem_filter] at hr
        refine ⟨?_, (hin r hr.1).2⟩
        simp only [runtime_step, retainScan, List.mem_filter]
        refine ⟨(hin r hr.1).1, ?_⟩
        simp only [Bool.or_eq_true, List.any_eq_true]
        exact Or.inr ⟨r, List.mem_filter.mpr hr, by simp⟩
  · intro s e g hret hdrop r hr
    cases e with
    | dispatch rid => exact absurd hret hdrop
    | publish h2 =>
      intro hg
      apply hdrop
      simp only [runtime_step, retainScan, List.mem_filter]
      refine ⟨List.mem_cons_of_mem _ hret, ?_⟩
      simp only [Bool.or_eq_true, List.any_eq_true]
      exact Or.inr ⟨r, hr, by simp [hg]⟩
    | complete rid =>
      intro hg
      apply hdrop
      simp only [runtime_step, retainScan, List.mem_filter]
      refine ⟨hret, ?_⟩
      simp only [Bool.or_eq_true, List.any_eq_true]
      simp only [runtime_step] at hr
      exact Or.inr ⟨r, hr, by simp [hg]⟩

/-- C3 witness: concrete runs — a request in flight before a publish
still completes on its captured handle version 0 after version 5 is
published; a request dispatched after the publish captures version 5;
the initial runtime is well formed and stays so across a dispatch; and
completing the last user of version 0 releases it. -/
theorem runtime_reload_atomicity_witness :
    ((1, 0) ∈ (runtime_step ⟨0, [(1, 0)], [0], [0]⟩ (RtEvent.publish 5)).inflight ∨
      RtEvent.publish 5 = RtEvent.complete 1) ∧
    (2, 5) ∈ (runtime_step (runtime_step ⟨0, [(1, 0)], [0], [0]⟩ (RtEvent.publish 5))
      (RtEvent.dispatch 2)).inflight ∧
    WFRuntime (initRuntime 0) ∧
    WFRuntime (runtime_step (initRuntime 0) (RtEvent.dispatch 1)) ∧
    (∀ r ∈ (runtime_step ⟨5, [(1, 0)], [0, 5], [5, 0]⟩ (RtEvent.complete 1)).inflight,
      r.2 ≠ 0) := by
  refine ⟨?_, ?_, ?_, ?_, ?_⟩
  · exact runtime_reload_atomicity.2.1 ⟨0, [(1, 0)], [0], [0]⟩ (RtEvent.publish 5) 1 0
      (by decide)
  · exact runtime_reload_atomicity.2.2.1 ⟨0, [(1, 0)], [0], [0]⟩ 5 2
  · exact runtime_reload_atomicity.2.2.2.1 0
  · exact runtime_reload_atomicity.2.2.2.2.1 (initRuntime 0) (RtEvent.dispatch 1)
      (runtime_reload_atomicity.2.2.2.1 0)
  · exact runtime_reload_atomicity.2.2.2.2.2 ⟨5, [(1, 0)], [0, 5], [5, 0]⟩
      (RtEvent.complete 1) 0 (by decide) (by decide)

end Peko
